import Mathlib

/-!
# Review_Sense — verification of the review-approval session manager

A shallow embedding of the per-manager review-approval workflow of the
Review_Sense repository, restricted to the slice of state owned by one
manager identity (one key of the global dictionaries of `WhatsAppAgent`).

Source functions embedded here:
* `process_whatsapp_message`  (src/agents/whatsapp_agent.py, the keyword
  intent processor; it also mutates per-user state in place),
* the webhook dispatch on the returned intent string
  (src/whatsapp_server.py, `whatsapp_webhook`),
* `send_review_for_approval`, `fetch_reviews_background`
  (src/whatsapp_server.py),
* the `initialize` and `summarize` actions of `manage_review_workflow`
  (src/agents/whatsapp_agent.py),
* `filter_reviews_by_rating` (src/custom/functions/helper_functions.py),
* the rating-to-sentiment derivation of `analyze_sentiment`
  (src/agents/sentiment_analysis_agent.py).

Python dictionaries become Lean structures with `Option` fields where the
source reads them through `.get` with a default; in-place list mutation
becomes `List.set`; the external revision pipeline (a CrewAI call) is an
oracle parameter `Option String` — `none` models the call raising.
-/

/-! ## String helpers

The source lowercases each inbound message and tests substring containment
against fixed lowercase keywords.  These helpers mirror Python `str.lower`,
`in` (substring test) and `str.startswith` over `String.data`, which keeps
every guard kernel-computable.
-/

/-- `needle` (first argument) occurs at the start of `hay`. -/
def listIsPre : List Char → List Char → Bool
  | [], _ => true
  | _ :: _, [] => false
  | b :: bs, a :: as => a == b && listIsPre bs as

/-- `needle` occurs somewhere inside `hay` (first argument); mirrors
Python `needle in hay`. -/
def listHasSub : List Char → List Char → Bool
  | [], needle => needle.isEmpty
  | c :: t, needle => listIsPre needle (c :: t) || listHasSub t needle

/-- Python `needle in hay` on strings. -/
def strContainsSub (hay needle : String) : Bool :=
  listHasSub hay.data needle.data

/-- Python `hay.startswith(p)`. -/
def strStarts (hay p : String) : Bool :=
  listIsPre p.data hay.data

/-- Python `s.lower()` (ASCII, which is all the source keywords use). -/
def strLower (s : String) : String :=
  String.mk (s.data.map Char.toLower)

/-! ## Data model -/

/-- One review record (a Python dict).  Fields the source reads through
`.get` with a meaningful default are `Option`s; `response` and
`approval_status` are plain strings because every code path that matters
writes them before reading. -/
structure Review where
  rating : Option Int
  text : String
  author : String
  time : String
  sentiment : Option String
  summarized_text : Option String
  response : String
  approval_status : String
  manager_feedback : Option String
  revision_feedback : Option String
deriving Repr, DecidableEq

/-- The slice of `WhatsAppAgent` state for one manager identity:
`hasReviewData` is `user_id in self.review_data`; `reviews` is
`review_data[user].get('analyzed_reviews', [])`; `currentIndex` is
`current_indices.get(user, 0)` (absence behaves exactly like `0` because
every read uses that default); `reviewState` is `review_states.get(user)`;
`lastCommand` is `last_command.get(user)`; `inAgentAdviceMode` is
`in_agent_advice_mode.get(user, False)`. -/
structure SessionState where
  hasReviewData : Bool
  reviews : List Review
  currentIndex : Nat
  reviewState : Option String
  lastCommand : Option String
  inAgentAdviceMode : Bool
deriving Repr, DecidableEq

/-! ## The intent processor (`process_whatsapp_message`) -/

/-- The body of `process_whatsapp_message` with the lowercased message
(`message_lower` in the source, computed once on entry) passed in as
`ml`.  Branches appear in exactly the source order. -/
def process_with_lower (st : SessionState) (messageText ml : String) :
    SessionState × String :=
  if st.inAgentAdviceMode then
    if ml == "exit" then
      ({ st with inAgentAdviceMode := false }, "AGENT_ADVICE:exit")
    else
      (st, "AGENT_ADVICE:" ++ messageText)
  else if strContainsSub ml "fetch reviews" || strContainsSub ml "get reviews" then
    (st, "COMMAND:FETCH_REVIEWS")
  else if ml == "agent advice" || ml == "agent_advice" || strContainsSub ml "agent advice" then
    ({ st with inAgentAdviceMode := true }, "COMMAND:AGENT_ADVICE")
  else if st.hasReviewData then
    if st.reviewState == some "completed" then
      if strContainsSub ml "summary" then
        (st, "COMMAND:SHOW_SUMMARY")
      else
        (st, "COMMAND:ALL_COMPLETED")
    else if (strContainsSub ml "skip" || strContainsSub ml "next") && ml.length ≤ 5 then
      ({ st with currentIndex := st.currentIndex + 1 }, "COMMAND:NEXT_REVIEW")
    else if strContainsSub ml "summary" then
      (st, "COMMAND:SHOW_SUMMARY")
    else if (strContainsSub ml "continue" || strContainsSub ml "start") && ml.length < 10 then
      (st, "COMMAND:CONTINUE_REVIEWS")
    else if strContainsSub ml "approve" then
      if h : st.currentIndex < st.reviews.length then
        let r := st.reviews.get ⟨st.currentIndex, h⟩
        ({ st with
            reviews := st.reviews.set st.currentIndex { r with approval_status := "approved" },
            lastCommand := some "approve" },
          "APPROVED:NEXT_REVIEW")
      else
        (st, "CONVERSATION:" ++ messageText)
    else if st.lastCommand == some "feedback" then
      if h : st.currentIndex < st.reviews.length then
        let r := st.reviews.get ⟨st.currentIndex, h⟩
        ({ st with
            reviews := st.reviews.set st.currentIndex
              { r with approval_status := "needs_revision",
                       manager_feedback := some messageText },
            lastCommand := none },
          "REVISION:" ++ messageText)
      else
        (st, "CONVERSATION:" ++ messageText)
    else if strContainsSub ml "feedback" || strContainsSub ml "please" then
      ({ st with lastCommand := some "feedback" },
        "FEEDBACK_NEEDED:Please provide specific feedback on what changes you would like to make to the response.")
    else
      (st, "UNCLEAR:Oops! I could not understand your previous command. While in review mode, please use Approve to accept, Feedback to suggest changes, Fetch reviews for new reviews")
  else
    (st, "CONVERSATION:" ++ messageText)

/-- `process_whatsapp_message` from src/agents/whatsapp_agent.py: the
deterministic keyword intent processor.  It returns the (possibly
mutated) per-user state together with the intent string the source
returns. -/
def process_whatsapp_message (st : SessionState) (messageText : String) :
    SessionState × String :=
  process_with_lower st messageText (strLower messageText)

/-! ## Outbound actions

Each constructor records one outbound message the server sends, carrying
exactly the review/session data the source message text interpolates.
The completion message of the APPROVED branch interpolates nothing (its
summary lines are commented out in the source), so `completionNotice`
carries no fields. -/

inductive OutMsg where
  | welcome
  | approvedConfirmation
  | reviewPresentation (author : String) (rating : Int) (text : String) (response : String)
  | completionNotice
  | unclearPrompt
  | revisedDraft (response : String)
  | revisionErrorNotice
  | allCompletedSummary (total : Nat) (approved : Nat)
  | analysisReport (total : Nat) (highRated : Nat) (pending : Nat)
  | allHighRated
deriving Repr, DecidableEq

/-! ## The review-management actions (`manage_review_workflow`) -/

/-- The JSON object the `summarize` action returns. -/
structure Summary where
  total : Nat
  approved : Nat
  pending : Nat
  needs_revision : Nat
  current_index : Nat
  completed : Bool
deriving Repr, DecidableEq

/-- `sum(1 for r in reviews if r.get('approval_status') == s)`. -/
def countStatus (reviews : List Review) (s : String) : Nat :=
  (reviews.filter (fun r => r.approval_status == s)).length

/-- The `summarize` action of `manage_review_workflow`
(src/agents/whatsapp_agent.py): errors (`none`) when the user has no
review data, otherwise reports the counts, the raw cursor value as
`current_index`, and the completion flag. -/
def manage_review_workflow_summarize (st : SessionState) : Option Summary :=
  if st.hasReviewData then
    some { total := st.reviews.length
         , approved := countStatus st.reviews "approved"
         , pending := countStatus st.reviews "pending"
         , needs_revision := countStatus st.reviews "needs_revision"
         , current_index := st.currentIndex
         , completed := st.reviewState == some "completed" }
  else none

/-- Result of the `initialize` action of `manage_review_workflow`. -/
inductive InitResult where
  | error (msg : String)
  | success (review_count : Nat)
deriving Repr, DecidableEq

/-- The batch mapping handed to ingestion (the JSON produced by the
fetch/analysis pipeline).  `others` stands for any further keys of the
dict, kept only so frame properties can be stated. -/
structure ReviewData where
  status : Option String
  message : Option String
  restaurant_name : Option String
  total_analyzed_reviews : Option Nat
  analyzed_reviews : Option (List Review)
  others : List (String × String)
deriving Repr, DecidableEq

/-- The `initialize` action of `manage_review_workflow`
(src/agents/whatsapp_agent.py): rejects batches whose `status` is
`error` and batches with no reviews, both without touching the session;
otherwise stores the batch, resets the cursor, marks the state
`initialized` and forces every stored item to `approval_status =
'pending'` (the in-place loop over the stored list). -/
def manage_review_workflow_init_action (st : SessionState) (review_data : ReviewData) :
    SessionState × InitResult :=
  if review_data.status == some "error" then
    (st, .error (review_data.message.getD "Unknown error in review data"))
  else
    match review_data.analyzed_reviews with
    | none => (st, .error "No reviews available for processing")
    | some [] => (st, .error "No reviews available for processing")
    | some reviews =>
      let reviews2 := reviews.map (fun r => { r with approval_status := "pending" })
      ({ st with hasReviewData := true
               , reviews := reviews2
               , currentIndex := 0
               , reviewState := some "initialized" },
        .success reviews.length)

/-! ## The rating filter (`filter_reviews_by_rating`) -/

/-- The comprehension guard `int(review.get('rating', 0)) <= max_rating`. -/
def keepReview (max_rating : Int) (r : Review) : Bool :=
  r.rating.getD 0 ≤ max_rating

/-- `filter_reviews_by_rating` from src/custom/functions/helper_functions.py.
An input with no `analyzed_reviews` key (which covers the Python falsy
check, since a falsy dict is empty) is returned untouched with removed
count 0; otherwise a copy is built whose `analyzed_reviews` is the
filtered list and whose `total_analyzed_reviews`, when present, is
rebound to the kept count. -/
def filter_reviews_by_rating (review_data : ReviewData) (max_rating : Int) :
    ReviewData × Nat :=
  match review_data.analyzed_reviews with
  | none => (review_data, 0)
  | some original_reviews =>
    let filtered_reviews := original_reviews.filter (keepReview max_rating)
    let removed_count := original_reviews.length - filtered_reviews.length
    let filtered_data :=
      { review_data with
          analyzed_reviews := some filtered_reviews
        , total_analyzed_reviews :=
            match review_data.total_analyzed_reviews with
            | some _ => some filtered_reviews.length
            | none => none }
    (filtered_data, removed_count)

/-! ## The webhook dispatch (`whatsapp_webhook`) and its helpers -/

/-- `send_review_for_approval` from src/whatsapp_server.py: when the index
is in range, format the item (author, stars from `rating` with default 3,
original text, proposed response) and report success. -/
def send_review_for_approval (st : SessionState) (review_idx : Nat) : Option OutMsg :=
  match st.reviews[review_idx]? with
  | some r => some (.reviewPresentation r.author (r.rating.getD 3) r.text r.response)
  | none => none

/-- Modelled from the spec: `reset_user_review_state` is called by the
webhook after the last item is approved but its body is not under src/.
Per the spec, clearing a Session removes items, cursor and lifecycle and
preserves the long-lived conversational data, so this clears
`hasReviewData`, `reviews`, `currentIndex` and `reviewState` and leaves
the other per-user fields alone. -/
def reset_user_review_state (st : SessionState) : SessionState :=
  { st with hasReviewData := false, reviews := [], currentIndex := 0, reviewState := none }

/-- The `APPROVED:NEXT_REVIEW` branch of `whatsapp_webhook`
(src/whatsapp_server.py lines 164-211): confirm, advance the cursor by
one, and either present the item at the new cursor or — when the new
cursor is past the end — compute the summary (whose counts the sent
completion message does not include), mark the state `completed`, send
the static completion notice and reset the per-user review state. -/
def approvedBranch (st : SessionState) : SessionState × List OutMsg :=
  match send_review_for_approval { st with currentIndex := st.currentIndex + 1 }
      (st.currentIndex + 1) with
  | some m => ({ st with currentIndex := st.currentIndex + 1 }, [.approvedConfirmation, m])
  | none =>
    (reset_user_review_state
        { st with currentIndex := st.currentIndex + 1, reviewState := some "completed" },
     [.approvedConfirmation, .completionNotice])

/-- The `REVISION:` branch of `whatsapp_webhook` (src/whatsapp_server.py
lines 230-295).  The revision pipeline (a CrewAI call) is the oracle
`pipeline`; `none` models the call raising, in which case the `except`
arm sends the error notice and nothing is written back. -/
def revisionBranch (st : SessionState) (pipeline : Option String) :
    SessionState × List OutMsg :=
  if h : st.currentIndex < st.reviews.length then
    let r := st.reviews.get ⟨st.currentIndex, h⟩
    match pipeline with
    | some revised_response =>
      ({ st with reviews := st.reviews.set st.currentIndex { r with response := revised_response } },
        [.revisedDraft revised_response])
    | none => (st, [.revisionErrorNotice])
  else (st, [])

/-- The `COMMAND:ALL_COMPLETED` branch of `whatsapp_webhook`: re-reads the
summary and sends a completion message interpolating its `total` and
`approved` counts (a summarize error surfaces as `.get(..., 0)` = 0). -/
def allCompletedBranch (st : SessionState) : SessionState × List OutMsg :=
  match manage_review_workflow_summarize st with
  | some s => (st, [.allCompletedSummary s.total s.approved])
  | none => (st, [.allCompletedSummary 0 0])

/-- The dispatch of `whatsapp_webhook` on the intent string returned by
`process_whatsapp_message`.  Intents with no matching `elif` (for
example `COMMAND:NEXT_REVIEW` or `FEEDBACK_NEEDED:`) fall through and
send nothing.  The `CONVERSATION:WELCOME` branch also schedules the
background ingestion task, which runs detached and is modelled
separately by `fetch_reviews_background`. -/
def webhookDispatch (st : SessionState) (intent : String) (pipeline : Option String) :
    SessionState × List OutMsg :=
  if intent == "CONVERSATION:WELCOME" then (st, [.welcome])
  else if strStarts intent "APPROVED:NEXT_REVIEW" then approvedBranch st
  else if strStarts intent "UNCLEAR:" then (st, [.unclearPrompt])
  else if strStarts intent "REVISION:" then revisionBranch st pipeline
  else if strStarts intent "COMMAND:ALL_COMPLETED" then allCompletedBranch st
  else (st, [])

/-- One inbound message handled end to end by `whatsapp_webhook`:
classify with `process_whatsapp_message` (which already mutates the
per-user state), then dispatch on the intent. -/
def whatsapp_webhook (st : SessionState) (body : String) (pipeline : Option String) :
    SessionState × List OutMsg :=
  webhookDispatch (process_whatsapp_message st body).1
    (process_whatsapp_message st body).2 pipeline

/-- A sequence of inbound messages, each with its revision-pipeline
oracle, processed in order. -/
def runMessages (st : SessionState) : List (String × Option String) → SessionState
  | [] => st
  | (body, pipeline) :: rest => runMessages (whatsapp_webhook st body pipeline).1 rest

/-! ## Background ingestion (`fetch_reviews_background`) -/

/-- What `fetch_reviews_background` produces besides the new session:
the outbound messages and the counts it reports. -/
structure FetchResult where
  state : SessionState
  messages : List OutMsg
  total_reviews : Nat
  high_rated_reviews : Nat
  pending_reviews : Nat
deriving Repr, DecidableEq

/-- `fetch_reviews_background` from src/whatsapp_server.py (the
non-preloaded path, lines 341-401): filter the batch at threshold 3,
overwrite the session (data, cursor 0, state `initialized`), force every
queued item to `approval_status = 'pending'`, report the counts, then
present item 0 when anything is pending, else announce all-high-rated
and mark the state `completed`.  The `status` field of the batch is
never consulted. -/
def fetch_reviews_background (st : SessionState) (json_result_original : ReviewData) :
    FetchResult :=
  let fr := filter_reviews_by_rating json_result_original 3
  let json_result := fr.1
  let removed_count := fr.2
  let reviews := (json_result.analyzed_reviews.getD []).map
    (fun r => { r with approval_status := "pending" })
  let st1 := { st with hasReviewData := true
                     , reviews := reviews
                     , currentIndex := 0
                     , reviewState := some "initialized" }
  let total_reviews := (json_result_original.analyzed_reviews.getD []).length
  let high_rated_reviews := removed_count
  let pending_reviews := total_reviews - high_rated_reviews
  let report := OutMsg.analysisReport total_reviews high_rated_reviews pending_reviews
  if pending_reviews > 0 then
    match send_review_for_approval st1 0 with
    | some m => { state := st1, messages := [report, m],
                  total_reviews := total_reviews,
                  high_rated_reviews := high_rated_reviews,
                  pending_reviews := pending_reviews }
    | none => { state := st1, messages := [report],
                total_reviews := total_reviews,
                high_rated_reviews := high_rated_reviews,
                pending_reviews := pending_reviews }
  else
    { state := { st1 with reviewState := some "completed" },
      messages := [report, .allHighRated],
      total_reviews := total_reviews,
      high_rated_reviews := high_rated_reviews,
      pending_reviews := pending_reviews }

/-! ## Sentiment derivation (`analyze_sentiment`) -/

/-- The rating-to-sentiment branch of `analyze_sentiment`
(src/agents/sentiment_analysis_agent.py lines 107-113). -/
def sentimentOfRating (rating : Int) : String :=
  if rating ≤ 2 then "negative"
  else if rating = 3 then "neutral"
  else "positive"

/-! ## Derived predicates used in the statements -/

/-- The returned string carries exactly one of the intent tags the source
can produce. -/
def intentTagged (s : String) : Bool :=
  strStarts s "AGENT_ADVICE:" || strStarts s "COMMAND:" || strStarts s "APPROVED:" ||
  strStarts s "REVISION:" || strStarts s "FEEDBACK_NEEDED:" || strStarts s "UNCLEAR:" ||
  strStarts s "CONVERSATION:"

/-- No keyword of the intent processor matches the message: not in advice
mode, no fetch or advice trigger, the session (if any) not completed (in
the completed state every message is matched by design, to
ALL_COMPLETED), no review-mode command keyword, and no pending feedback
request.  This is the "unmatched text" situation of the spec. -/
def noKeywordMatch (st : SessionState) (msg : String) : Bool :=
  let ml := strLower msg
  !st.inAgentAdviceMode &&
  !(strContainsSub ml "fetch reviews" || strContainsSub ml "get reviews") &&
  !(ml == "agent advice" || ml == "agent_advice" || strContainsSub ml "agent advice") &&
  !(st.reviewState == some "completed") &&
  !(strContainsSub ml "skip" || strContainsSub ml "next") &&
  !(strContainsSub ml "summary") &&
  !(strContainsSub ml "continue" || strContainsSub ml "start") &&
  !(strContainsSub ml "approve") &&
  !(st.lastCommand == some "feedback") &&
  !(strContainsSub ml "feedback" || strContainsSub ml "please")

/-! ## Concrete fixtures for witnesses and counterexamples -/

/-- A review record with the given rating, author, text, response and
approval status, all other fields fixed. -/
def mkR (rating : Int) (author text response status : String) : Review :=
  { rating := some rating, text := text, author := author, time := "March-2024",
    sentiment := none, summarized_text := none, response := response,
    approval_status := status, manager_feedback := none, revision_feedback := none }

def reviewA : Review := mkR 2 "A" "ta" "ra" "pending"

def reviewB : Review := mkR 1 "B" "tb" "rb" "pending"

/-- No session for this manager (absence from the store). -/
def stNoSession : SessionState :=
  { hasReviewData := false, reviews := [], currentIndex := 0,
    reviewState := none, lastCommand := none, inAgentAdviceMode := false }

/-- An initialized session holding the single item `reviewA`, cursor 0. -/
def stA : SessionState :=
  { stNoSession with hasReviewData := true, reviews := [reviewA],
                     reviewState := some "initialized" }

/-- An initialized session holding `[reviewA, reviewB]`, cursor 0. -/
def stAB : SessionState := { stA with reviews := [reviewA, reviewB] }

/-- A session in which the first item has already been approved. -/
def c9St : SessionState := { stAB with reviews := [mkR 2 "A" "ta" "ra" "approved", reviewB] }

/-- A batch whose upstream `status` signals an error (the shape
`process_crew_output` emits on failure: empty review list, a message). -/
def errBatch : ReviewData :=
  { status := some "error", message := some "boom", restaurant_name := none,
    total_analyzed_reviews := none, analyzed_reviews := some [], others := [] }

/-- Scenario A batch: three reviews with ratings [5,2,4]; the incoming
records carry stale approval statuses. -/
def batch524 : ReviewData :=
  { status := some "success", message := none, restaurant_name := some "Z",
    total_analyzed_reviews := some 3,
    analyzed_reviews := some
      [mkR 5 "P" "tp" "rp" "approved", mkR 2 "Q" "tq" "rq" "approved",
       mkR 4 "R" "tr" "rr" "stale"],
    others := [("k", "v")] }

/-- The queued form of the rating-2 item of `batch524`. -/
def pendQ : Review := mkR 2 "Q" "tq" "rq" "pending"

/-- A batch mapping with no `analyzed_reviews` key. -/
def noReviewsBatch : ReviewData :=
  { status := none, message := none, restaurant_name := some "Z",
    total_analyzed_reviews := none, analyzed_reviews := none, others := [("k", "v")] }

/-- `stA` after a prior turn requested free-text revision feedback. -/
def stFb : SessionState := { stA with lastCommand := some "feedback" }


/-! ## Shared helper lemmas -/

/-- The queue `fetch_reviews_background` installs is the filtered list
with every approval status forced to `pending`, in every branch. -/
theorem fetch_state_reviews (st : SessionState) (d : ReviewData) :
    (fetch_reviews_background st d).state.reviews =
      ((filter_reviews_by_rating d 3).1.analyzed_reviews.getD []).map
        (fun r => { r with approval_status := "pending" }) := by
  simp only [fetch_reviews_background]
  split
  · split <;> rfl
  · rfl

/-- When every status is one of the three known values, the three counts
partition the queue. -/
theorem countStatus_partition (l : List Review)
    (h : ∀ r ∈ l, r.approval_status = "approved" ∨ r.approval_status = "pending" ∨
        r.approval_status = "needs_revision") :
    countStatus l "approved" + countStatus l "pending" + countStatus l "needs_revision"
      = l.length := by
  induction l with
  | nil => rfl
  | cons a t ih =>
    have ha := h a (List.mem_cons_self a t)
    have ih2 := ih (fun r hr => h r (List.mem_cons_of_mem a hr))
    rcases ha with h1 | h1 | h1 <;>
      simp [countStatus, List.filter_cons, h1] at ih2 ⊢ <;> omega

/-! ## Claim theorems -/

/-- C6: the derived sentiment is a deterministic function of the rating:
rating ≤ 2 yields negative, rating = 3 neutral, rating > 3 positive. -/
theorem c6_sentiment_cases (rating : Int) :
    (rating ≤ 2 → sentimentOfRating rating = "negative") ∧
    (rating = 3 → sentimentOfRating rating = "neutral") ∧
    (3 < rating → sentimentOfRating rating = "positive") := by
  unfold sentimentOfRating
  refine ⟨fun h => ?_, fun h => ?_, fun h => ?_⟩
  · rw [if_pos h]
  · rw [if_neg (by omega), if_pos h]
  · rw [if_neg (by omega), if_neg (by omega)]

/-- C6 witness: the three cases at ratings 1, 3 and 5. -/
theorem c6_sentiment_cases_witness :
    sentimentOfRating 1 = "negative" ∧ sentimentOfRating 3 = "neutral" ∧
    sentimentOfRating 5 = "positive" :=
  ⟨(c6_sentiment_cases 1).1 (by decide), (c6_sentiment_cases 3).2.1 rfl,
   (c6_sentiment_cases 5).2.2 (by decide)⟩

/-- C10: the rating filter is pure on its input: when the
`analyzed_reviews` key is absent (which subsumes a falsy input) the input
itself is returned with removed count 0, and otherwise the result agrees
with the input on every field other than the two rebound ones. -/
theorem c10_filter_frame (d : ReviewData) (m : Int) :
    (d.analyzed_reviews = none → filter_reviews_by_rating d m = (d, 0)) ∧
    (filter_reviews_by_rating d m).1.status = d.status ∧
    (filter_reviews_by_rating d m).1.message = d.message ∧
    (filter_reviews_by_rating d m).1.restaurant_name = d.restaurant_name ∧
    (filter_reviews_by_rating d m).1.others = d.others := by
  unfold filter_reviews_by_rating
  cases h : d.analyzed_reviews <;> simp

/-- C10 witness: a mapping without the key passes through untouched. -/
theorem c10_filter_frame_witness :
    filter_reviews_by_rating noReviewsBatch 3 = (noReviewsBatch, 0) :=
  (c10_filter_frame noReviewsBatch 3).1 (by decide)

/-- C9 counterexample: the summary reports the raw 0-based cursor, not the
1-based position the claim states: on a session at cursor 0 the reported
`current_index` is 0, while the 1-based position is 1. -/
theorem c9_position_reported_zero_based :
    (manage_review_workflow_summarize c9St).map Summary.current_index = some 0 ∧
    c9St.currentIndex + 1 = 1 ∧ (0 : Nat) ≠ 1 := by decide

/-- C9 (amended): SHOW_SUMMARY reports total = number of items, the three
per-status counts, and the current position as the raw 0-based cursor;
when every status is one of the three values the counts partition the
total. -/
theorem c9_summary_counts (st : SessionState) (h : st.hasReviewData = true) :
    manage_review_workflow_summarize st = some
      { total := st.reviews.length
      , approved := countStatus st.reviews "approved"
      , pending := countStatus st.reviews "pending"
      , needs_revision := countStatus st.reviews "needs_revision"
      , current_index := st.currentIndex
      , completed := st.reviewState == some "completed" } ∧
    ((∀ r ∈ st.reviews, r.approval_status = "approved" ∨ r.approval_status = "pending" ∨
         r.approval_status = "needs_revision") →
      countStatus st.reviews "approved" + countStatus st.reviews "pending" +
        countStatus st.reviews "needs_revision" = st.reviews.length) :=
  ⟨by simp [manage_review_workflow_summarize, h], fun hw => countStatus_partition _ hw⟩

/-- C9 witness: the summary of a two-item session with one approval. -/
theorem c9_summary_counts_witness :
    manage_review_workflow_summarize c9St = some
      { total := 2, approved := 1, pending := 1, needs_revision := 0,
        current_index := 0, completed := false } ∧
    countStatus c9St.reviews "approved" + countStatus c9St.reviews "pending" +
      countStatus c9St.reviews "needs_revision" = c9St.reviews.length := by
  have h := c9_summary_counts c9St (by decide)
  exact ⟨h.1.trans (by decide), h.2 (by decide)⟩

/-- C3 (amended): the review-management `initialize` action surfaces an
error-status batch to the caller and leaves the session untouched (the
background fetch path, by contrast, ingests regardless of status — see
the counterexample). -/
theorem c3_init_action_rejects_error (st : SessionState) (d : ReviewData)
    (h : d.status = some "error") :
    manage_review_workflow_init_action st d =
      (st, InitResult.error (d.message.getD "Unknown error in review data")) := by
  simp [manage_review_workflow_init_action, h]

/-- C3 witness: an error batch against a live session is rejected with
its message and no mutation. -/
theorem c3_init_action_rejects_error_witness :
    manage_review_workflow_init_action stA errBatch = (stA, InitResult.error "boom") :=
  (c3_init_action_rejects_error stA errBatch (by decide)).trans (by decide)

/-- C3 counterexample: `fetch_reviews_background` never consults the
batch status: fed an error-status batch while a session exists, it
overwrites that session (here ending `completed` with an empty queue)
and surfaces no error. -/
theorem c3_fetch_ingests_error_batch :
    errBatch.status = some "error" ∧
    (fetch_reviews_background stA errBatch).state ≠ stA ∧
    (fetch_reviews_background stA errBatch).state.reviewState = some "completed" ∧
    (fetch_reviews_background stA errBatch).messages =
      [OutMsg.analysisReport 0 0 0, OutMsg.allHighRated] := by decide

/-- C4: immediately after ingestion — by the background fetch path or by
a successful `initialize` action — every queued item has approval status
`pending`, whatever status the incoming record carried. -/
theorem c4_ingestion_forces_pending :
    (∀ st d r, r ∈ (fetch_reviews_background st d).state.reviews →
        r.approval_status = "pending") ∧
    (∀ st d n, (manage_review_workflow_init_action st d).2 = InitResult.success n →
        ∀ r ∈ (manage_review_workflow_init_action st d).1.reviews,
          r.approval_status = "pending") := by
  constructor
  · intro st d r hr
    rw [fetch_state_reviews] at hr
    simp only [List.mem_map] at hr
    obtain ⟨a, -, rfl⟩ := hr
    rfl
  · intro st d n hsucc r hr
    by_cases hs : (d.status == some "error") = true
    · simp [manage_review_workflow_init_action, hs] at hsucc
    · rw [Bool.not_eq_true] at hs
      cases hd : d.analyzed_reviews with
      | none => simp [manage_review_workflow_init_action, hs, hd] at hsucc
      | some l =>
        cases l with
        | nil => simp [manage_review_workflow_init_action, hs, hd] at hsucc
        | cons a t =>
          simp [manage_review_workflow_init_action, hs, hd] at hr
          rcases hr with rfl | ⟨b, -, rfl⟩ <;> rfl

/-- C4 witness: ingesting `batch524` (whose records carry stale statuses
`approved` and `stale`) yields a queue item with status `pending`. -/
theorem c4_ingestion_forces_pending_witness :
    pendQ.approval_status = "pending" :=
  c4_ingestion_forces_pending.1 stNoSession batch524 pendQ (by decide)

/-- C5: at the default threshold 3 the filter keeps exactly the reviews
with rating ≤ 3 in their original order, reports removed = original −
kept, rebinds a present `total_analyzed_reviews` to the kept count; and
Scenario A — ingesting ratings [5,2,4] — queues only the rating-2 item
with 2 excluded and 1 pending. -/
theorem c5_rating_filter (d : ReviewData) (l : List Review)
    (h : d.analyzed_reviews = some l) :
    ((filter_reviews_by_rating d 3).1.analyzed_reviews = some (l.filter (keepReview 3)) ∧
     (l.filter (keepReview 3)).Sublist l ∧
     (∀ r ∈ l.filter (keepReview 3), r.rating.getD 0 ≤ 3) ∧
     (∀ r ∈ l, r.rating.getD 0 ≤ 3 → r ∈ l.filter (keepReview 3)) ∧
     (filter_reviews_by_rating d 3).2 = l.length - (l.filter (keepReview 3)).length ∧
     (∀ n, d.total_analyzed_reviews = some n →
         (filter_reviews_by_rating d 3).1.total_analyzed_reviews =
           some (l.filter (keepReview 3)).length)) ∧
    ((fetch_reviews_background stNoSession batch524).state.reviews = [pendQ] ∧
     (fetch_reviews_background stNoSession batch524).high_rated_reviews = 2 ∧
     (fetch_reviews_background stNoSession batch524).pending_reviews = 1) := by
  refine ⟨⟨?_, List.filter_sublist _, ?_, ?_, ?_, ?_⟩, by decide⟩
  · simp [filter_reviews_by_rating, h]
  · intro r hr
    have := List.of_mem_filter hr
    simpa [keepReview] using this
  · intro r hr hle
    exact List.mem_filter.mpr ⟨hr, by simpa [keepReview] using hle⟩
  · simp [filter_reviews_by_rating, h]
  · intro n hn
    simp [filter_reviews_by_rating, h, hn]

/-- C5 witness: the filter evaluated on the Scenario A batch. -/
theorem c5_rating_filter_witness :
    (filter_reviews_by_rating batch524 3).1.analyzed_reviews =
      some [mkR 2 "Q" "tq" "rq" "approved"] ∧
    (filter_reviews_by_rating batch524 3).2 = 2 ∧
    (filter_reviews_by_rating batch524 3).1.total_analyzed_reviews = some 1 := by
  have h := c5_rating_filter batch524
      [mkR 5 "P" "tp" "rp" "approved", mkR 2 "Q" "tq" "rq" "approved",
       mkR 4 "R" "tr" "rr" "stale"] (by decide)
  obtain ⟨⟨h1, -, -, -, h5, h6⟩, -⟩ := h
  exact ⟨h1.trans (by decide), h5.trans (by decide), (h6 3 (by decide)).trans (by decide)⟩

/-- Dispatch on the literal APPROVED intent reaches the approved branch. -/
theorem webhookDispatch_approved (st : SessionState) (pl : Option String) :
    webhookDispatch st "APPROVED:NEXT_REVIEW" pl = approvedBranch st := rfl

/-- Dispatch on a REVISION intent reaches the revision branch, whatever
the feedback text. -/
theorem webhookDispatch_revision (st : SessionState) (msg : String) (pl : Option String) :
    webhookDispatch st ("REVISION:" ++ msg) pl = revisionBranch st pl := rfl

/-- Under the conditions that drive the intent processor into its approve
branch, it marks the item at the cursor approved, records the last
command, and returns the APPROVED intent. -/
theorem process_message_approve (st : SessionState) (msg : String)
    (h0 : st.inAgentAdviceMode = false)
    (h1 : strContainsSub (strLower msg) "fetch reviews" = false)
    (h2 : strContainsSub (strLower msg) "get reviews" = false)
    (h3 : (strLower msg == "agent advice") = false)
    (h4 : (strLower msg == "agent_advice") = false)
    (h5 : strContainsSub (strLower msg) "agent advice" = false)
    (h6 : st.hasReviewData = true)
    (h7 : (st.reviewState == some "completed") = false)
    (h8 : strContainsSub (strLower msg) "skip" = false)
    (h9 : strContainsSub (strLower msg) "next" = false)
    (h10 : strContainsSub (strLower msg) "summary" = false)
    (h11 : strContainsSub (strLower msg) "continue" = false)
    (h12 : strContainsSub (strLower msg) "start" = false)
    (h13 : strContainsSub (strLower msg) "approve" = true)
    (h14 : st.currentIndex < st.reviews.length) :
    process_whatsapp_message st msg =
      ({ st with
          reviews := st.reviews.set st.currentIndex
            { st.reviews.get ⟨st.currentIndex, h14⟩ with approval_status := "approved" },
          lastCommand := some "approve" },
        "APPROVED:NEXT_REVIEW") := by
  simp [process_whatsapp_message, process_with_lower, h0, h1, h2, h3, h4, h5,
    h6, h7, h8, h9, h10, h11, h12, h13, h14]

/-- Under the conditions that drive the intent processor into its
pending-feedback branch, it marks the item `needs_revision`, stores the
message as manager feedback, clears the last command and returns the
REVISION intent carrying the message. -/
theorem process_message_feedback (st : SessionState) (msg : String)
    (h0 : st.inAgentAdviceMode = false)
    (h1 : strContainsSub (strLower msg) "fetch reviews" = false)
    (h2 : strContainsSub (strLower msg) "get reviews" = false)
    (h3 : (strLower msg == "agent advice") = false)
    (h4 : (strLower msg == "agent_advice") = false)
    (h5 : strContainsSub (strLower msg) "agent advice" = false)
    (h6 : st.hasReviewData = true)
    (h7 : (st.reviewState == some "completed") = false)
    (h8 : strContainsSub (strLower msg) "skip" = false)
    (h9 : strContainsSub (strLower msg) "next" = false)
    (h10 : strContainsSub (strLower msg) "summary" = false)
    (h11 : strContainsSub (strLower msg) "continue" = false)
    (h12 : strContainsSub (strLower msg) "start" = false)
    (h13 : strContainsSub (strLower msg) "approve" = false)
    (hlc : st.lastCommand = some "feedback")
    (h14 : st.currentIndex < st.reviews.length) :
    process_whatsapp_message st msg =
      ({ st with
          reviews := st.reviews.set st.currentIndex
            { st.reviews.get ⟨st.currentIndex, h14⟩ with
                approval_status := "needs_revision",
                manager_feedback := some msg },
          lastCommand := none },
        "REVISION:" ++ msg) := by
  simp [process_whatsapp_message, process_with_lower, h0, h1, h2, h3, h4, h5,
    h6, h7, h8, h9, h10, h11, h12, h13, hlc, h14]

/-- Characterization of the APPROVED webhook branch: with another item
beyond the new cursor it advances and presents that item; past the end
it sends the static completion notice and clears the per-user state. -/
theorem approvedBranch_spec (st : SessionState) :
    (st.currentIndex + 1 < st.reviews.length →
      ∃ r, st.reviews[st.currentIndex + 1]? = some r ∧
        approvedBranch st =
          ({ st with currentIndex := st.currentIndex + 1 },
           [OutMsg.approvedConfirmation,
            OutMsg.reviewPresentation r.author (r.rating.getD 3) r.text r.response])) ∧
    (st.reviews.length ≤ st.currentIndex + 1 →
      approvedBranch st =
        (reset_user_review_state st,
         [OutMsg.approvedConfirmation, OutMsg.completionNotice])) := by
  constructor
  · intro hlt
    refine ⟨st.reviews[st.currentIndex + 1], List.getElem?_eq_getElem hlt, ?_⟩
    unfold approvedBranch send_review_for_approval
    simp [List.getElem?_eq_getElem hlt]
  · intro hge
    unfold approvedBranch send_review_for_approval
    simp [List.getElem?_eq_none hge, reset_user_review_state]

/-- C1 counterexample: approving the last item does not leave the
review state at `completed` (the handler resets the per-user state right
after setting it) and emits no message carrying summary data — only the
static completion notice, whose summary lines are commented out in the
source. -/
theorem c1_completion_counterexample :
    whatsapp_webhook stA "approve" none =
      ({ hasReviewData := false, reviews := [], currentIndex := 0,
         reviewState := none, lastCommand := some "approve", inAgentAdviceMode := false },
       [OutMsg.approvedConfirmation, OutMsg.completionNotice]) ∧
    (whatsapp_webhook stA "approve" none).1.reviewState ≠ some "completed" := by decide

/-- C1 (amended): processing an APPROVED intent with cursor i < n marks
item i approved (visible in the state the intent processor writes) and
advances the cursor by exactly one; if the new cursor is still in range
the item at the new cursor is presented; otherwise the handler emits the
confirmation plus the static completion notice (no summary counts) and
clears the per-user review state, which passes transiently through
`completed`. -/
theorem c1_approved_transition (st : SessionState) (msg : String) (pipeline : Option String)
    (h0 : st.inAgentAdviceMode = false)
    (h1 : strContainsSub (strLower msg) "fetch reviews" = false)
    (h2 : strContainsSub (strLower msg) "get reviews" = false)
    (h3 : (strLower msg == "agent advice") = false)
    (h4 : (strLower msg == "agent_advice") = false)
    (h5 : strContainsSub (strLower msg) "agent advice" = false)
    (h6 : st.hasReviewData = true)
    (h7 : (st.reviewState == some "completed") = false)
    (h8 : strContainsSub (strLower msg) "skip" = false)
    (h9 : strContainsSub (strLower msg) "next" = false)
    (h10 : strContainsSub (strLower msg) "summary" = false)
    (h11 : strContainsSub (strLower msg) "continue" = false)
    (h12 : strContainsSub (strLower msg) "start" = false)
    (h13 : strContainsSub (strLower msg) "approve" = true)
    (h14 : st.currentIndex < st.reviews.length) :
    ((process_whatsapp_message st msg).1.reviews[st.currentIndex]?.map Review.approval_status
        = some "approved") ∧
    (st.currentIndex + 1 < st.reviews.length →
      (whatsapp_webhook st msg pipeline).1.currentIndex = st.currentIndex + 1 ∧
      ((whatsapp_webhook st msg pipeline).1.reviews[st.currentIndex]?.map Review.approval_status
          = some "approved") ∧
      ∃ r, st.reviews[st.currentIndex + 1]? = some r ∧
        (whatsapp_webhook st msg pipeline).2 =
          [OutMsg.approvedConfirmation,
           OutMsg.reviewPresentation r.author (r.rating.getD 3) r.text r.response]) ∧
    (st.reviews.length ≤ st.currentIndex + 1 →
      (whatsapp_webhook st msg pipeline).2 =
          [OutMsg.approvedConfirmation, OutMsg.completionNotice] ∧
      (whatsapp_webhook st msg pipeline).1.hasReviewData = false ∧
      (whatsapp_webhook st msg pipeline).1.reviewState = none ∧
      (whatsapp_webhook st msg pipeline).1.currentIndex = 0) := by
  have hpm := process_message_approve st msg h0 h1 h2 h3 h4 h5 h6 h7 h8 h9 h10
    h11 h12 h13 h14
  have hweb : whatsapp_webhook st msg pipeline =
      approvedBranch ((process_whatsapp_message st msg).1) := by
    unfold whatsapp_webhook
    rw [hpm]
    rfl
  have hset : (process_whatsapp_message st msg).1.reviews =
      st.reviews.set st.currentIndex
        { st.reviews.get ⟨st.currentIndex, h14⟩ with approval_status := "approved" } := by
    rw [hpm]
  have hcur : (process_whatsapp_message st msg).1.currentIndex = st.currentIndex := by
    rw [hpm]
  have hlen : (process_whatsapp_message st msg).1.reviews.length = st.reviews.length := by
    rw [hset, List.length_set]
  have hati : (process_whatsapp_message st msg).1.reviews[st.currentIndex]? =
      some { st.reviews.get ⟨st.currentIndex, h14⟩ with approval_status := "approved" } := by
    rw [hset]
    exact List.getElem?_set_eq_of_lt _ h14
  have hspec := approvedBranch_spec ((process_whatsapp_message st msg).1)
  refine ⟨by rw [hati]; rfl, ?_, ?_⟩
  · intro hlt
    obtain ⟨r, hr, hbr⟩ := hspec.1 (by rw [hcur, hlen]; exact hlt)
    rw [hcur] at hr
    rw [hset, List.getElem?_set_ne (by omega)] at hr
    rw [hweb, hbr]
    refine ⟨by rw [hcur], ?_, r, hr, rfl⟩
    show ((process_whatsapp_message st msg).1.reviews)[st.currentIndex]?.map
        Review.approval_status = some "approved"
    rw [hati]
    rfl
  · intro hge
    have hbr := hspec.2 (by rw [hcur, hlen]; exact hge)
    rw [hweb, hbr]
    exact ⟨rfl, rfl, rfl, rfl⟩

/-- C1 witness: Scenario B — a two-item session at cursor 0 receives an
approval; item A is approved, the cursor moves to 1 and item B is
presented. -/
theorem c1_approved_transition_witness :
    (whatsapp_webhook stAB "approve" none).1.currentIndex = 1 ∧
    (whatsapp_webhook stAB "approve" none).2 =
      [OutMsg.approvedConfirmation,
       OutMsg.reviewPresentation "B" 1 "tb" "rb"] := by
  have h := (c1_approved_transition stAB "approve" none (by decide) (by decide)
    (by decide) (by decide) (by decide) (by decide) (by decide) (by decide)
    (by decide) (by decide) (by decide) (by decide) (by decide) (by decide)
    (by decide)).2.1 (by decide)
  obtain ⟨hc, -, r, hr, hout⟩ := h
  refine ⟨hc, ?_⟩
  rw [hout]
  have : r = reviewB := by
    have : stAB.reviews[stAB.currentIndex + 1]? = some reviewB := by decide
    rw [this] at hr
    exact (Option.some_inj.mp hr).symm
  rw [this]
  rfl

/-- C2: when the revision pipeline raises while a REVISION intent is
handled for the in-range item at the cursor, the handler leaves the
response unchanged from its value before the call, leaves the status at
`needs_revision`, leaves the cursor unchanged, and sends the manager an
error notice instead of a revised draft. -/
theorem c2_revision_failure (st : SessionState) (msg : String)
    (h0 : st.inAgentAdviceMode = false)
    (h1 : strContainsSub (strLower msg) "fetch reviews" = false)
    (h2 : strContainsSub (strLower msg) "get reviews" = false)
    (h3 : (strLower msg == "agent advice") = false)
    (h4 : (strLower msg == "agent_advice") = false)
    (h5 : strContainsSub (strLower msg) "agent advice" = false)
    (h6 : st.hasReviewData = true)
    (h7 : (st.reviewState == some "completed") = false)
    (h8 : strContainsSub (strLower msg) "skip" = false)
    (h9 : strContainsSub (strLower msg) "next" = false)
    (h10 : strContainsSub (strLower msg) "summary" = false)
    (h11 : strContainsSub (strLower msg) "continue" = false)
    (h12 : strContainsSub (strLower msg) "start" = false)
    (h13 : strContainsSub (strLower msg) "approve" = false)
    (hlc : st.lastCommand = some "feedback")
    (h14 : st.currentIndex < st.reviews.length) :
    ((whatsapp_webhook st msg none).1.reviews[st.currentIndex]?.map Review.response
        = st.reviews[st.currentIndex]?.map Review.response) ∧
    ((whatsapp_webhook st msg none).1.reviews[st.currentIndex]?.map Review.approval_status
        = some "needs_revision") ∧
    (whatsapp_webhook st msg none).1.currentIndex = st.currentIndex ∧
    (whatsapp_webhook st msg none).2 = [OutMsg.revisionErrorNotice] := by
  have hpm := process_message_feedback st msg h0 h1 h2 h3 h4 h5 h6 h7 h8 h9 h10
    h11 h12 h13 hlc h14
  have hweb : whatsapp_webhook st msg none =
      revisionBranch ((process_whatsapp_message st msg).1) none := by
    unfold whatsapp_webhook
    rw [hpm]
    exact webhookDispatch_revision _ msg none
  have hset : (process_whatsapp_message st msg).1.reviews =
      st.reviews.set st.currentIndex
        { st.reviews.get ⟨st.currentIndex, h14⟩ with
            approval_status := "needs_revision", manager_feedback := some msg } := by
    rw [hpm]
  have hcur : (process_whatsapp_message st msg).1.currentIndex = st.currentIndex := by
    rw [hpm]
  have h14b : (process_whatsapp_message st msg).1.currentIndex <
      (process_whatsapp_message st msg).1.reviews.length := by
    rw [hcur, hset, List.length_set]
    exact h14
  have hrb : revisionBranch ((process_whatsapp_message st msg).1) none =
      ((process_whatsapp_message st msg).1, [OutMsg.revisionErrorNotice]) := by
    unfold revisionBranch
    rw [dif_pos h14b]
  have hati : (process_whatsapp_message st msg).1.reviews[st.currentIndex]? =
      some { st.reviews.get ⟨st.currentIndex, h14⟩ with
              approval_status := "needs_revision", manager_feedback := some msg } := by
    rw [hset]
    exact List.getElem?_set_eq_of_lt _ h14
  have horig : st.reviews[st.currentIndex]? = some (st.reviews.get ⟨st.currentIndex, h14⟩) :=
    List.getElem?_eq_getElem h14
  rw [hweb, hrb]
  refine ⟨?_, ?_, hcur, rfl⟩
  · rw [hati, horig]
    rfl
  · rw [hati]
    rfl

/-- C2 witness: Scenario E on a one-item session awaiting feedback — the
pipeline raises, the response stays `ra`, the status stays
`needs_revision`, the cursor stays 0 and only an error notice goes out. -/
theorem c2_revision_failure_witness :
    ((whatsapp_webhook stFb "make it warmer" none).1.reviews[stFb.currentIndex]?.map
        Review.response = some "ra") ∧
    ((whatsapp_webhook stFb "make it warmer" none).1.reviews[stFb.currentIndex]?.map
        Review.approval_status = some "needs_revision") ∧
    (whatsapp_webhook stFb "make it warmer" none).1.currentIndex = 0 ∧
    (whatsapp_webhook stFb "make it warmer" none).2 = [OutMsg.revisionErrorNotice] := by
  have h := c2_revision_failure stFb "make it warmer" (by decide) (by decide)
    (by decide) (by decide) (by decide) (by decide) (by decide) (by decide)
    (by decide) (by decide) (by decide) (by decide) (by decide) (by decide)
    (by decide) (by decide)
  exact ⟨h.1.trans (by decide), h.2.1, h.2.2.1, h.2.2.2⟩

/-- The intent processor never changes session existence; it changes the
cursor only in the skip/next branch (by exactly one, returning the
NEXT_REVIEW command); and only the approve branch can return a string
with the APPROVED prefix. -/
theorem process_with_lower_cursor (st : SessionState) (mt ml : String) :
    (process_with_lower st mt ml).1.hasReviewData = st.hasReviewData ∧
    ((process_with_lower st mt ml).1.currentIndex = st.currentIndex ∨
      ((process_with_lower st mt ml).1.currentIndex = st.currentIndex + 1 ∧
        (process_with_lower st mt ml).2 = "COMMAND:NEXT_REVIEW")) ∧
    ((process_with_lower st mt ml).2 = "APPROVED:NEXT_REVIEW" ∨
      strStarts (process_with_lower st mt ml).2 "APPROVED:NEXT_REVIEW" = false) := by
  delta process_with_lower
  by_cases c1 : st.inAgentAdviceMode = true
  · rw [if_pos c1]
    by_cases c2 : (ml == "exit") = true
    · rw [if_pos c2]
      exact ⟨rfl, Or.inl rfl, Or.inr rfl⟩
    · rw [if_neg c2]
      exact ⟨rfl, Or.inl rfl, Or.inr rfl⟩
  rw [if_neg c1]
  by_cases c3 : (strContainsSub ml "fetch reviews" || strContainsSub ml "get reviews") = true
  · rw [if_pos c3]
    exact ⟨rfl, Or.inl rfl, Or.inr rfl⟩
  rw [if_neg c3]
  by_cases c4 : (ml == "agent advice" || ml == "agent_advice" ||
      strContainsSub ml "agent advice") = true
  · rw [if_pos c4]
    exact ⟨rfl, Or.inl rfl, Or.inr rfl⟩
  rw [if_neg c4]
  by_cases c5 : st.hasReviewData = true
  · rw [if_pos c5]
    by_cases c6 : (st.reviewState == some "completed") = true
    · rw [if_pos c6]
      by_cases c7 : strContainsSub ml "summary" = true
      · rw [if_pos c7]
        exact ⟨rfl, Or.inl rfl, Or.inr rfl⟩
      · rw [if_neg c7]
        exact ⟨rfl, Or.inl rfl, Or.inr rfl⟩
    rw [if_neg c6]
    by_cases c8 : ((strContainsSub ml "skip" || strContainsSub ml "next") &&
        decide (ml.length ≤ 5)) = true
    · rw [if_pos c8]
      exact ⟨rfl, Or.inr ⟨rfl, rfl⟩, Or.inr rfl⟩
    rw [if_neg c8]
    by_cases c9 : strContainsSub ml "summary" = true
    · rw [if_pos c9]
      exact ⟨rfl, Or.inl rfl, Or.inr rfl⟩
    rw [if_neg c9]
    by_cases c10 : ((strContainsSub ml "continue" || strContainsSub ml "start") &&
        decide (ml.length < 10)) = true
    · rw [if_pos c10]
      exact ⟨rfl, Or.inl rfl, Or.inr rfl⟩
    rw [if_neg c10]
    by_cases c11 : strContainsSub ml "approve" = true
    · rw [if_pos c11]
      rcases Nat.lt_or_ge st.currentIndex st.reviews.length with c12 | c12
      · rw [dif_pos c12]
        exact ⟨rfl, Or.inl rfl, Or.inl rfl⟩
      · rw [dif_neg (by omega)]
        exact ⟨rfl, Or.inl rfl, Or.inr rfl⟩
    rw [if_neg c11]
    by_cases c13 : (st.lastCommand == some "feedback") = true
    · rw [if_pos c13]
      rcases Nat.lt_or_ge st.currentIndex st.reviews.length with c14 | c14
      · rw [dif_pos c14]
        exact ⟨rfl, Or.inl rfl, Or.inr rfl⟩
      · rw [dif_neg (by omega)]
        exact ⟨rfl, Or.inl rfl, Or.inr rfl⟩
    rw [if_neg c13]
    by_cases c15 : (strContainsSub ml "feedback" || strContainsSub ml "please") = true
    · rw [if_pos c15]
      exact ⟨rfl, Or.inl rfl, Or.inr rfl⟩
    · rw [if_neg c15]
      exact ⟨rfl, Or.inl rfl, Or.inr rfl⟩
  · rw [if_neg c5]
    exact ⟨rfl, Or.inl rfl, Or.inr rfl⟩

/-- The intent processor never changes session existence; it changes the
cursor only in the skip/next branch (by exactly one, returning the
NEXT_REVIEW command); and only the approve branch can return a string
with the APPROVED prefix. -/
theorem process_message_cursor (st : SessionState) (msg : String) :
    (process_whatsapp_message st msg).1.hasReviewData = st.hasReviewData ∧
    ((process_whatsapp_message st msg).1.currentIndex = st.currentIndex ∨
      ((process_whatsapp_message st msg).1.currentIndex = st.currentIndex + 1 ∧
        (process_whatsapp_message st msg).2 = "COMMAND:NEXT_REVIEW")) ∧
    ((process_whatsapp_message st msg).2 = "APPROVED:NEXT_REVIEW" ∨
      strStarts (process_whatsapp_message st msg).2 "APPROVED:NEXT_REVIEW" = false) :=
  process_with_lower_cursor st msg (strLower msg)

/-- The webhook dispatch keeps the cursor and session existence except in
the APPROVED branch, where it either advances the cursor by one or
clears the session. -/
theorem webhookDispatch_cursor (st : SessionState) (intent : String) (pl : Option String) :
    ((webhookDispatch st intent pl).1.currentIndex = st.currentIndex ∧
     (webhookDispatch st intent pl).1.hasReviewData = st.hasReviewData) ∨
    (strStarts intent "APPROVED:NEXT_REVIEW" = true ∧
      (((webhookDispatch st intent pl).1.currentIndex = st.currentIndex + 1 ∧
        (webhookDispatch st intent pl).1.hasReviewData = st.hasReviewData) ∨
       (webhookDispatch st intent pl).1.hasReviewData = false)) := by
  delta webhookDispatch
  by_cases c1 : (intent == "CONVERSATION:WELCOME") = true
  · rw [if_pos c1]
    exact Or.inl ⟨rfl, rfl⟩
  rw [if_neg c1]
  by_cases c2 : strStarts intent "APPROVED:NEXT_REVIEW" = true
  · rw [if_pos c2]
    refine Or.inr ⟨c2, ?_⟩
    cases hm : send_review_for_approval { st with currentIndex := st.currentIndex + 1 }
        (st.currentIndex + 1) with
    | some m =>
      simp only [approvedBranch, hm]
      exact Or.inl ⟨by trivial, by trivial⟩
    | none =>
      simp only [approvedBranch, hm]
      exact Or.inr (by trivial)
  rw [if_neg c2]
  by_cases c3 : strStarts intent "UNCLEAR:" = true
  · rw [if_pos c3]
    exact Or.inl ⟨rfl, rfl⟩
  rw [if_neg c3]
  by_cases c4 : strStarts intent "REVISION:" = true
  · rw [if_pos c4]
    refine Or.inl ?_
    delta revisionBranch
    rcases Nat.lt_or_ge st.currentIndex st.reviews.length with c5 | c5
    · rw [dif_pos c5]
      cases pl <;> exact ⟨rfl, rfl⟩
    · rw [dif_neg (by omega)]
      exact ⟨rfl, rfl⟩
  rw [if_neg c4]
  by_cases c6 : strStarts intent "COMMAND:ALL_COMPLETED" = true
  · rw [if_pos c6]
    refine Or.inl ?_
    cases hs : manage_review_workflow_summarize st with
    | some summ =>
      simp only [allCompletedBranch, hs]
      exact ⟨by trivial, by trivial⟩
    | none =>
      simp only [allCompletedBranch, hs]
      exact ⟨by trivial, by trivial⟩
  · rw [if_neg c6]
    exact Or.inl ⟨rfl, rfl⟩

/-- One full webhook step either ends with the session cleared, or keeps
session existence and moves the cursor by zero or exactly one — the
latter only for the APPROVED or skip/next transitions. -/
theorem whatsapp_webhook_cursor_step (st : SessionState) (body : String) (pl : Option String) :
    (whatsapp_webhook st body pl).1.hasReviewData = false ∨
    ((whatsapp_webhook st body pl).1.hasReviewData = st.hasReviewData ∧
      ((whatsapp_webhook st body pl).1.currentIndex = st.currentIndex ∨
        ((whatsapp_webhook st body pl).1.currentIndex = st.currentIndex + 1 ∧
          ((process_whatsapp_message st body).2 = "APPROVED:NEXT_REVIEW" ∨
           (process_whatsapp_message st body).2 = "COMMAND:NEXT_REVIEW")))) := by
  obtain ⟨hhr, hcur, happr⟩ := process_message_cursor st body
  have hd := webhookDispatch_cursor (process_whatsapp_message st body).1
    (process_whatsapp_message st body).2 pl
  have hw : whatsapp_webhook st body pl =
      webhookDispatch (process_whatsapp_message st body).1
        (process_whatsapp_message st body).2 pl := rfl
  rw [hw]
  rcases hd with ⟨hc2, hh2⟩ | ⟨hstart, hrest⟩
  · rcases hcur with hc1 | ⟨hc1, hint⟩
    · exact Or.inr ⟨hh2.trans hhr, Or.inl (hc2.trans hc1)⟩
    · exact Or.inr ⟨hh2.trans hhr, Or.inr ⟨hc2.trans hc1, Or.inr hint⟩⟩
  · rcases happr with hA | hA
    · rcases hrest with ⟨hc2, hh2⟩ | hdead
      · rcases hcur with hc1 | ⟨hc1, hint⟩
        · exact Or.inr ⟨hh2.trans hhr, Or.inr ⟨by rw [hc2, hc1], Or.inl hA⟩⟩
        · rw [hA] at hint
          exact absurd hint (by decide)
      · exact Or.inl hdead
    · rw [hA] at hstart
      exact absurd hstart (by decide)

/-- A cleared session stays cleared across any further inbound messages
(no inbound handler re-creates review data; only ingestion does). -/
theorem runMessages_dead (inputs : List (String × Option String)) (st : SessionState)
    (h : st.hasReviewData = false) :
    (runMessages st inputs).hasReviewData = false := by
  induction inputs generalizing st with
  | nil => exact h
  | cons i rest ih =>
    obtain ⟨body, pl⟩ := i
    rcases whatsapp_webhook_cursor_step st body pl with hd | ⟨hh, -⟩
    · exact ih _ hd
    · exact ih _ (hh.trans h)

/-- C7 counterexample: a skip/next message — not an APPROVED transition —
also increments the cursor: on a live two-item session, "next" yields
the NEXT_REVIEW command and moves the cursor from 0 to 1. -/
theorem c7_skip_increments_without_approval :
    (process_whatsapp_message stAB "next").2 = "COMMAND:NEXT_REVIEW" ∧
    "COMMAND:NEXT_REVIEW" ≠ "APPROVED:NEXT_REVIEW" ∧
    (whatsapp_webhook stAB "next" none).1.currentIndex = stAB.currentIndex + 1 := by decide

/-- C7 (amended): within one lifecycle episode (while the session
survives) the cursor is monotonically non-decreasing across any sequence
of processed inbound messages, and a single step that keeps the session
changes the cursor by zero or by exactly one, the latter only on the
APPROVED or the skip/next transition. -/
theorem c7_cursor_monotone :
    (∀ st inputs, (runMessages st inputs).hasReviewData = true →
        st.currentIndex ≤ (runMessages st inputs).currentIndex) ∧
    (∀ st body pl, (whatsapp_webhook st body pl).1.hasReviewData = true →
        (whatsapp_webhook st body pl).1.currentIndex = st.currentIndex ∨
        ((whatsapp_webhook st body pl).1.currentIndex = st.currentIndex + 1 ∧
          ((process_whatsapp_message st body).2 = "APPROVED:NEXT_REVIEW" ∨
           (process_whatsapp_message st body).2 = "COMMAND:NEXT_REVIEW"))) := by
  constructor
  · intro st inputs
    induction inputs generalizing st with
    | nil => exact fun _ => Nat.le_refl _
    | cons i rest ih =>
      obtain ⟨body, pl⟩ := i
      intro halive
      have hstep := whatsapp_webhook_cursor_step st body pl
      have hrun : runMessages st ((body, pl) :: rest) =
          runMessages (whatsapp_webhook st body pl).1 rest := rfl
      rw [hrun] at halive ⊢
      rcases hstep with hd | ⟨-, hcur⟩
      · rw [runMessages_dead rest _ hd] at halive
        exact absurd halive (by decide)
      · have h2 := ih _ halive
        rcases hcur with hc | ⟨hc, -⟩
        · omega
        · omega
  · intro st body pl halive
    rcases whatsapp_webhook_cursor_step st body pl with hd | ⟨-, hcur⟩
    · rw [hd] at halive
      exact absurd halive (by decide)
    · exact hcur

/-- C7 witness: approving on a two-item session keeps the session and
moves the cursor from 0 to 1 — monotone over the one-message sequence,
and the single step increments via the APPROVED transition. -/
theorem c7_cursor_monotone_witness :
    stAB.currentIndex ≤ (runMessages stAB [("approve", none)]).currentIndex ∧
    ((whatsapp_webhook stAB "approve" none).1.currentIndex = stAB.currentIndex ∨
      ((whatsapp_webhook stAB "approve" none).1.currentIndex = stAB.currentIndex + 1 ∧
        ((process_whatsapp_message stAB "approve").2 = "APPROVED:NEXT_REVIEW" ∨
         (process_whatsapp_message stAB "approve").2 = "COMMAND:NEXT_REVIEW"))) :=
  ⟨c7_cursor_monotone.1 stAB [("approve", none)] (by decide),
   c7_cursor_monotone.2 stAB "approve" none (by decide)⟩

/-- Every branch of the intent-processor body returns a tagged intent
string. -/
theorem process_with_lower_tagged (st : SessionState) (mt ml : String) :
    intentTagged (process_with_lower st mt ml).2 = true := by
  delta process_with_lower
  by_cases c1 : st.inAgentAdviceMode = true
  · rw [if_pos c1]
    by_cases c2 : (ml == "exit") = true
    · rw [if_pos c2]; rfl
    · rw [if_neg c2]; rfl
  rw [if_neg c1]
  by_cases c3 : (strContainsSub ml "fetch reviews" || strContainsSub ml "get reviews") = true
  · rw [if_pos c3]; rfl
  rw [if_neg c3]
  by_cases c4 : (ml == "agent advice" || ml == "agent_advice" ||
      strContainsSub ml "agent advice") = true
  · rw [if_pos c4]; rfl
  rw [if_neg c4]
  by_cases c5 : st.hasReviewData = true
  · rw [if_pos c5]
    by_cases c6 : (st.reviewState == some "completed") = true
    · rw [if_pos c6]
      by_cases c7 : strContainsSub ml "summary" = true
      · rw [if_pos c7]; rfl
      · rw [if_neg c7]; rfl
    rw [if_neg c6]
    by_cases c8 : ((strContainsSub ml "skip" || strContainsSub ml "next") &&
        decide (ml.length ≤ 5)) = true
    · rw [if_pos c8]; rfl
    rw [if_neg c8]
    by_cases c9 : strContainsSub ml "summary" = true
    · rw [if_pos c9]; rfl
    rw [if_neg c9]
    by_cases c10 : ((strContainsSub ml "continue" || strContainsSub ml "start") &&
        decide (ml.length < 10)) = true
    · rw [if_pos c10]; rfl
    rw [if_neg c10]
    by_cases c11 : strContainsSub ml "approve" = true
    · rw [if_pos c11]
      rcases Nat.lt_or_ge st.currentIndex st.reviews.length with c12 | c12
      · rw [dif_pos c12]; rfl
      · rw [dif_neg (by omega)]; rfl
    rw [if_neg c11]
    by_cases c13 : (st.lastCommand == some "feedback") = true
    · rw [if_pos c13]
      rcases Nat.lt_or_ge st.currentIndex st.reviews.length with c14 | c14
      · rw [dif_pos c14]; rfl
      · rw [dif_neg (by omega)]; rfl
    rw [if_neg c13]
    by_cases c15 : (strContainsSub ml "feedback" || strContainsSub ml "please") = true
    · rw [if_pos c15]; rfl
    · rw [if_neg c15]; rfl
  · rw [if_neg c5]; rfl

/-- C8: the intent processor is total — for every per-user state and
every message it returns exactly one tagged intent string (the shallow
counterpart of "never raises": the embedded function is defined on all
inputs, as the source performs only guarded dictionary reads) — and on
unmatched text it falls through to an UNCLEAR (live review mode) or
CONVERSATION (no session) result. -/
theorem c8_intent_processing_total :
    (∀ st msg, intentTagged (process_whatsapp_message st msg).2 = true) ∧
    (∀ st msg, noKeywordMatch st msg = true →
        strStarts (process_whatsapp_message st msg).2 "UNCLEAR:" = true ∨
        strStarts (process_whatsapp_message st msg).2 "CONVERSATION:" = true) := by
  constructor
  · intro st msg
    exact process_with_lower_tagged st msg (strLower msg)
  · intro st msg h
    simp only [noKeywordMatch, Bool.and_eq_true, Bool.not_eq_true'] at h
    obtain ⟨⟨⟨⟨⟨⟨⟨⟨⟨h1, h2⟩, h3⟩, h4⟩, h5⟩, h6⟩, h7⟩, h8⟩, h9⟩, h10⟩ := h
    show strStarts (process_with_lower st msg (strLower msg)).2 "UNCLEAR:" = true ∨
      strStarts (process_with_lower st msg (strLower msg)).2 "CONVERSATION:" = true
    delta process_with_lower
    rw [if_neg (by simp [h1]), if_neg (by simp [h2]), if_neg (by simp [h3])]
    by_cases c5 : st.hasReviewData = true
    · rw [if_pos c5, if_neg (by simp [h4]), if_neg (by simp [h5]),
        if_neg (by simp [h6]), if_neg (by simp [h7]), if_neg (by simp [h8]),
        if_neg (by simp [h9]), if_neg (by simp [h10])]
      exact Or.inl rfl
    · rw [if_neg c5]
      exact Or.inr rfl

/-- C8 witness: a message matching no keyword in a live, non-completed
session falls through to UNCLEAR. -/
theorem c8_intent_processing_total_witness :
    intentTagged (process_whatsapp_message stAB "zzz").2 = true ∧
    (strStarts (process_whatsapp_message stAB "zzz").2 "UNCLEAR:" = true ∨
      strStarts (process_whatsapp_message stAB "zzz").2 "CONVERSATION:" = true) :=
  ⟨c8_intent_processing_total.1 stAB "zzz",
   c8_intent_processing_total.2 stAB "zzz" (by decide)⟩
